import Mathlib

/-!
Shallow embedding of `haystack/components/rankers/transformers_similarity.py`
(`TransformersSimilarityRanker`): the data model, the constructor validation,
`warm_up`, `to_dict`/`from_dict` serialization and the `run` ranking pipeline,
together with proofs settling the specification claims.

Python floats are modelled as rationals (ℚ).  The external collaborators
(the Hugging Face scoring model, `torch.sigmoid`, `torch.sort`, and the
device utilities from `haystack.utils`) are not part of the source under
verification; the first three enter the embedding as explicit parameters of
`run` (`torch.sort`'s output is constrained only by its documented contract,
which does not guarantee stability), and the device utilities are modelled
from the spec.
-/

namespace TransformersSimilarity

/-- A value stored in a Document's `meta` mapping, with Python `str` coercion
and Python truthiness. -/
inductive MetaValue where
  | mStr (s : String)
  | mInt (n : Int)
  | mBool (b : Bool)
deriving DecidableEq, Repr

/-- Python `str(...)` on a meta value. -/
def MetaValue.pyStr : MetaValue → String
  | .mStr s => s
  | .mInt n => toString n
  | .mBool b => if b then "True" else "False"

/-- Python truthiness of a meta value. -/
def MetaValue.truthy : MetaValue → Bool
  | .mStr s => s ≠ ""
  | .mInt n => n ≠ 0
  | .mBool b => b

/-- The `haystack` Document as used by the ranker: readable `content`
(optional text) and `meta` (string-keyed mapping), and a writable nullable
`score`.  `id` stands for the object's identity. -/
structure Document where
  id : Nat
  content : Option String
  meta : List (String × MetaValue)
  score : Option ℚ
deriving DecidableEq, Repr, Inhabited

/-- The `token` constructor argument: `Union[bool, str, None]`. -/
inductive TokenVal where
  | noneTok
  | boolTok (b : Bool)
  | strTok (s : String)
deriving DecidableEq, Repr

/-- The finitely many torch dtype markers that can appear as `model_kwargs`
values (`torch.float16`, ...). -/
inductive TorchDtype where
  | float16
  | bfloat16
  | float32
  | float64
deriving DecidableEq, Repr

/-- Canonical string form of a dtype, as produced by `str(torch.float16)`. -/
def TorchDtype.canonical : TorchDtype → String
  | .float16 => "torch.float16"
  | .bfloat16 => "torch.bfloat16"
  | .float32 => "torch.float32"
  | .float64 => "torch.float64"

/-- Recognize the canonical string form of a dtype. -/
def TorchDtype.ofCanonical (s : String) : Option TorchDtype :=
  if s = "torch.float16" then some .float16
  else if s = "torch.bfloat16" then some .bfloat16
  else if s = "torch.float32" then some .float32
  else if s = "torch.float64" then some .float64
  else none

/-- A value stored in `model_kwargs`. -/
inductive MKVal where
  | str (s : String)
  | boolV (b : Bool)
  | intV (n : Int)
  | dtype (d : TorchDtype)
deriving DecidableEq, Repr

/-- Python truthiness of a `model_kwargs` value (a dtype object is always
truthy). -/
def MKVal.truthy : MKVal → Bool
  | .str s => s ≠ ""
  | .boolV b => b
  | .intV n => n ≠ 0
  | .dtype _ => true

/-- Truthiness of `dict.get(key)`: `none` (missing key) is falsy. -/
def truthyOpt : Option MKVal → Bool
  | none => false
  | some v => v.truthy

/-- `model_kwargs`, an insertion-ordered string-keyed mapping. -/
abbrev ModelKwargs := List (String × MKVal)

/-- Python `dict[k] = v`: update in place if `k` present, else append. -/
def setKw (kw : ModelKwargs) (k : String) (v : MKVal) : ModelKwargs :=
  if (kw.lookup k).isSome then
    kw.map (fun p => if p.1 = k then (k, v) else p)
  else
    kw ++ [(k, v)]

/-- Modelled from the spec: `ComponentDevice` (from `haystack.utils`, not part
of the verified source) is an opaque device specification with a lossless
dictionary serialization; we record only its serialized form. -/
structure ComponentDevice where
  hf : String
deriving DecidableEq, Repr

/-- Modelled from the spec: lossless export of a device specification. -/
def ComponentDevice.to_dict (d : ComponentDevice) : String := d.hf

/-- Modelled from the spec: lossless import of a device specification,
inverse of `ComponentDevice.to_dict`. -/
def ComponentDevice.from_dict (s : String) : ComponentDevice := ⟨s⟩

/-- Modelled from the spec: `device.to_hf()` yields the Hugging Face
placement directive for the device, stored as a `model_kwargs` value. -/
def ComponentDevice.to_hf (d : ComponentDevice) : MKVal := .str d.hf

/-- Modelled from the spec: `ComponentDevice.resolve_device` — if the
argument is `None` the default device is automatically selected, otherwise
the given device is used. -/
def resolve_device : Option ComponentDevice → ComponentDevice
  | some d => d
  | none => ⟨"cpu"⟩

/-- Modelled from the spec: `ComponentDevice.from_multiple(DeviceMap.from_hf v)`,
the device/placement resolver applied to a `device_map` loader option. -/
def deviceFromHfMap (v : MKVal) : ComponentDevice :=
  match v with
  | .str s => ⟨s⟩
  | .boolV b => ⟨toString b⟩
  | .intV n => ⟨toString n⟩
  | .dtype d => ⟨d.canonical⟩

/-- Errors raised by the component: `ValueError` (configuration error) or
`ComponentError` (not warmed up). -/
inductive RankerError where
  | valueError (msg : String)
  | componentError (msg : String)
deriving DecidableEq, Repr

/-- Whether an error is a configuration error (`ValueError`). -/
def isValueError : Option RankerError → Bool
  | some (.valueError _) => true
  | _ => false

/-- The state of a constructed `TransformersSimilarityRanker`.
`modelLoaded` models `self.model is not None`. -/
structure Ranker where
  model_name_or_path : String
  modelLoaded : Bool
  top_k : Int
  token : TokenVal
  meta_fields_to_embed : List String
  embedding_separator : String
  scale_score : Bool
  calibration_factor : Option ℚ
  score_threshold : Option ℚ
  model_kwargs : ModelKwargs
  device : ComponentDevice
deriving DecidableEq, Repr

/-- `TransformersSimilarityRanker.__init__` (lines 39-108 of the source):
stores the fields, raises on a device/device-map conflict, resolves the
device, and validates `scale_score`/`calibration_factor` and `top_k`. -/
def init (model : String) (device : Option ComponentDevice) (token : TokenVal)
    (top_k : Int) (meta_fields_to_embed : Option (List String))
    (embedding_separator : String) (scale_score : Bool)
    (calibration_factor : Option ℚ) (score_threshold : Option ℚ)
    (model_kwargs : Option ModelKwargs) : Except RankerError Ranker :=
  if truthyOpt ((model_kwargs.getD []).lookup "device_map") ∧ device.isSome then
    .error (.valueError "The parameters device and device_map from model_kwargs cannot both be provided.")
  else if scale_score ∧ calibration_factor.isNone then
    .error (.valueError "scale_score is True so calibration_factor must be provided")
  else if top_k ≤ 0 then
    .error (.valueError "top_k must be greater than 0")
  else
    .ok { model_name_or_path := model
          modelLoaded := false
          top_k := top_k
          token := token
          meta_fields_to_embed := meta_fields_to_embed.getD []
          embedding_separator := embedding_separator
          scale_score := scale_score
          calibration_factor := calibration_factor
          score_threshold := score_threshold
          model_kwargs := model_kwargs.getD []
          device :=
            if truthyOpt ((model_kwargs.getD []).lookup "device_map") ∧ device.isNone then
              deviceFromHfMap (((model_kwargs.getD []).lookup "device_map").getD (.str ""))
            else
              resolve_device device }

/-- `warm_up` (lines 116-128): if the model is not loaded, write the resolved
device placement into `model_kwargs` under `"device_map"` and load the model
and tokenizer; otherwise do nothing. -/
def warm_up (r : Ranker) : Ranker :=
  if r.modelLoaded then r
  else
    { r with
      model_kwargs := setKw r.model_kwargs "device_map" r.device.to_hf
      modelLoaded := true }

/-- `serialize_hf_model_kwargs` on one value.  Modelled from the spec:
framework-specific non-primitive values (dtype markers) are serialized to
their canonical string form; primitives are kept as they are. -/
def serializeVal : MKVal → MKVal
  | .dtype d => .str d.canonical
  | v => v

/-- `deserialize_hf_model_kwargs` on one value.  Modelled from the spec:
canonical dtype strings are decoded back to the same dtype value. -/
def deserializeVal : MKVal → MKVal
  | .str s =>
    match TorchDtype.ofCanonical s with
    | some d => .dtype d
    | none => .str s
  | v => v

/-- `serialize_hf_model_kwargs` over the whole mapping. -/
def serializeKwargs (kw : ModelKwargs) : ModelKwargs :=
  kw.map (fun p => (p.1, serializeVal p.2))

/-- `deserialize_hf_model_kwargs` over the whole mapping. -/
def deserializeKwargs (kw : ModelKwargs) : ModelKwargs :=
  kw.map (fun p => (p.1, deserializeVal p.2))

/-- The `init_parameters` record produced by `to_dict` (the `type` key is a
constant and is left implicit). -/
structure SerializedRanker where
  device : String
  model : String
  token : TokenVal
  top_k : Int
  meta_fields_to_embed : List String
  embedding_separator : String
  scale_score : Bool
  calibration_factor : Option ℚ
  score_threshold : Option ℚ
  model_kwargs : ModelKwargs
deriving DecidableEq, Repr

/-- `to_dict` (lines 130-149): export every field; a literal string token is
replaced by `None`; `model_kwargs` values are serialized. -/
def to_dict (r : Ranker) : SerializedRanker :=
  { device := r.device.to_dict
    model := r.model_name_or_path
    token := match r.token with
             | .strTok _ => .noneTok
             | t => t
    top_k := r.top_k
    meta_fields_to_embed := r.meta_fields_to_embed
    embedding_separator := r.embedding_separator
    scale_score := r.scale_score
    calibration_factor := r.calibration_factor
    score_threshold := r.score_threshold
    model_kwargs := serializeKwargs r.model_kwargs }

/-- `from_dict` (lines 151-160): rebuild the device, deserialize the
`model_kwargs` values and call the constructor. -/
def from_dict (d : SerializedRanker) : Except RankerError Ranker :=
  init d.model (some (ComponentDevice.from_dict d.device)) d.token d.top_k
    (some d.meta_fields_to_embed) d.embedding_separator d.scale_score
    d.calibration_factor d.score_threshold (some (deserializeKwargs d.model_kwargs))

/-! ### The ranking pipeline (`run`, lines 162-239) -/

/-- Effective `top_k`: the Python expression `top_k or self.top_k`
(an override of `0` is falsy and falls back to the stored default). -/
def effTopK (r : Ranker) : Option Int → Int
  | some k => if k ≠ 0 then k else r.top_k
  | none => r.top_k

/-- Effective `scale_score`: the Python expression
`scale_score or self.scale_score` (`False` falls back to the default). -/
def effScale (r : Ranker) : Option Bool → Bool
  | some b => if b then b else r.scale_score
  | none => r.scale_score

/-- Effective `calibration_factor`: `calibration_factor or self.calibration_factor`
(an override of `0.0` is falsy and falls back to the stored default). -/
def effCF (r : Ranker) : Option ℚ → Option ℚ
  | some c => if c ≠ 0 then some c else r.calibration_factor
  | none => r.calibration_factor

/-- Effective `score_threshold`: `score_threshold or self.score_threshold`
(an override of `0.0` is falsy and falls back to the stored default). -/
def effST (r : Ranker) : Option ℚ → Option ℚ
  | some t => if t ≠ 0 then some t else r.score_threshold
  | none => r.score_threshold

/-- The fused text for one document (lines 209-212): the string-coerced
values of the configured meta fields that are present and truthy, followed by
`doc.content or ""`, joined by the embedding separator. -/
def fusedText (meta_fields : List String) (sep : String) (d : Document) : String :=
  let meta_values :=
    (meta_fields.filter
      (fun key => match d.meta.lookup key with
                  | some v => v.truthy
                  | none => false)).map
      (fun key => ((d.meta.lookup key).getD (.mStr "")).pyStr)
  String.intercalate sep (meta_values ++ [d.content.getD ""])

/-- The list of query/document pairs handed to the tokenizer and scoring
model (lines 207-213), in input document order. -/
def queryDocPairs (meta_fields : List String) (sep : String) (query : String)
    (documents : List Document) : List (String × String) :=
  documents.map (fun d => (query, fusedText meta_fields sep d))

/-- Lines 223-224: if `scale_score`, every raw score is passed through the
sigmoid after multiplication by the calibration factor. -/
def finalScores (scale : Bool) (cf : Option ℚ) (sigmoid : ℚ → ℚ)
    (raw : List ℚ) : List ℚ :=
  if scale then raw.map (fun s => sigmoid (s * cf.getD 0)) else raw

/-- The result-building loop (lines 230-234): for each sorted index `i`,
write `scores[i]` onto `documents[i]` and append that document (represented
by its index) to the ranked list.  Returns the final state of the document
list together with the appended indices. -/
def rankLoop (docs : List Document) (scores : List ℚ) :
    List Nat → List Document × List Nat
  | [] => (docs, [])
  | i :: rest =>
    let d := docs.getD i default
    let docs1 := docs.set i { d with score := some (scores.getD i 0) }
    let res := rankLoop docs1 scores rest
    (res.1, i :: res.2)

/-- The effective score of a document after `run` wrote it. -/
def docScore (d : Document) : ℚ := d.score.getD 0

/-- The outcome of a `run` call: the error raised (if any), the final state
of the caller's document list (the same objects, scores written in place),
and the returned ranked documents as indices into that list. -/
structure RunResult where
  error : Option RankerError
  documents : List Document
  ranked : List Nat
deriving DecidableEq, Repr

/-- The scoring-and-ranking part of `run` (lines 207-239), reached once the
effective parameters `tk`, `sc`, `cf`, `st` passed validation: build the
pairs, score them, calibrate, walk the sorted indices writing scores in
place, filter by threshold and truncate to `tk`. -/
def runCore (r : Ranker) (sigmoid : ℚ → ℚ)
    (scorer : List (String × String) → List ℚ) (sortIdxs : List Nat)
    (query : String) (documents : List Document)
    (tk : Int) (sc : Bool) (cf st : Option ℚ) : RunResult :=
  let pairs := queryDocPairs r.meta_fields_to_embed r.embedding_separator query documents
  let raw := scorer pairs
  let scores := finalScores sc cf sigmoid raw
  let res := rankLoop documents scores sortIdxs
  let rankedF :=
    match st with
    | none => res.2
    | some t => res.2.filter (fun i => t ≤ docScore ((res.1).getD i default))
  { error := none, documents := res.1, ranked := rankedF.take tk.toNat }

/-- `run` (lines 162-239).  The external collaborators are parameters:
`sigmoid` is `torch.sigmoid`, `scorer` is the tokenizer+model forward pass
(one score per pair, in order), and `sortIdxs` is the index permutation
returned by `torch.sort(·, descending=True)` on the final scores. -/
def run (r : Ranker) (sigmoid : ℚ → ℚ) (scorer : List (String × String) → List ℚ)
    (sortIdxs : List Nat) (query : String) (documents : List Document)
    (top_k : Option Int) (scale_score : Option Bool)
    (calibration_factor : Option ℚ) (score_threshold : Option ℚ) : RunResult :=
  if documents.isEmpty then
    { error := none, documents := documents, ranked := [] }
  else
    let tk := effTopK r top_k
    let sc := effScale r scale_score
    let cf := effCF r calibration_factor
    let st := effST r score_threshold
    if tk ≤ 0 then
      { error := some (.valueError "top_k must be greater than 0")
        documents := documents, ranked := [] }
    else if sc ∧ cf.isNone then
      { error := some (.valueError "scale_score is True so calibration_factor must be provided")
        documents := documents, ranked := [] }
    else if ¬ r.modelLoaded then
      { error := some (.componentError "The component was not warmed up.")
        documents := documents, ranked := [] }
    else
      runCore r sigmoid scorer sortIdxs query documents tk sc cf st

/-- The final scores computed by a `run` call with the given overrides, as a
function of the external scorer and sigmoid. -/
def runScores (r : Ranker) (sigmoid : ℚ → ℚ)
    (scorer : List (String × String) → List ℚ) (query : String)
    (documents : List Document) (sco : Option Bool) (cfo : Option ℚ) : List ℚ :=
  finalScores (effScale r sco) (effCF r cfo) sigmoid
    (scorer (queryDocPairs r.meta_fields_to_embed r.embedding_separator query documents))

/-- The contract of `torch.sort(values, descending=True)` on the returned
index tensor: the indices are a permutation of the positions, and reading the
values along them gives a descending sequence.  The default `stable=False`
guarantees nothing more about the order of equal values. -/
def IsTorchSortDesc (scores : List ℚ) (idxs : List Nat) : Prop :=
  List.Perm idxs (List.range scores.length) ∧
    (idxs.map (fun i => scores.getD i 0)).Sorted (· ≥ ·)

instance (scores : List ℚ) (idxs : List Nat) :
    Decidable (IsTorchSortDesc scores idxs) := by
  unfold IsTorchSortDesc; infer_instance

/-- Number of documents passing the (optional) threshold, measured on the
final scores. -/
def passCount (scores : List ℚ) (st : Option ℚ) (n : Nat) : Nat :=
  match st with
  | none => n
  | some t => (List.range n).countP (fun i => t ≤ scores.getD i 0)

/-- A ranker with the constructor's default arguments (resolved on the
default device), before warm-up. -/
def defaultRanker : Ranker :=
  { model_name_or_path := "cross-encoder/ms-marco-MiniLM-L-6-v2"
    modelLoaded := false
    top_k := 10
    token := .noneTok
    meta_fields_to_embed := []
    embedding_separator := "\n"
    scale_score := true
    calibration_factor := some 1
    score_threshold := none
    model_kwargs := []
    device := ⟨"cpu"⟩ }

/-! ### Helper lemmas -/

theorem default_init_ok :
    init "cross-encoder/ms-marco-MiniLM-L-6-v2" none .noneTok 10 none "\n" true
      (some 1) none none = .ok defaultRanker := by
  rfl

theorem finalScores_length (scale : Bool) (cf : Option ℚ) (sigmoid : ℚ → ℚ)
    (raw : List ℚ) : (finalScores scale cf sigmoid raw).length = raw.length := by
  unfold finalScores; split <;> simp

theorem rankLoop_snd (docs : List Document) (scores : List ℚ) (idxs : List Nat) :
    (rankLoop docs scores idxs).2 = idxs := by
  induction idxs generalizing docs with
  | nil => rfl
  | cons i rest ih => simp [rankLoop, ih]

theorem rankLoop_length (docs : List Document) (scores : List ℚ) (idxs : List Nat) :
    (rankLoop docs scores idxs).1.length = docs.length := by
  induction idxs generalizing docs with
  | nil => rfl
  | cons i rest ih => simp [rankLoop, ih]

theorem rankLoop_getD_not_mem (docs : List Document) (scores : List ℚ)
    (idxs : List Nat) (j : Nat) (hj : j ∉ idxs) :
    (rankLoop docs scores idxs).1.getD j default = docs.getD j default := by
  induction idxs generalizing docs with
  | nil => rfl
  | cons i rest ih =>
    have hji : j ≠ i := fun h => hj (h ▸ List.mem_cons_self i rest)
    have hjr : j ∉ rest := fun h => hj (List.mem_cons_of_mem i h)
    simp only [rankLoop, ih _ hjr]
    simp [List.getD, List.getElem?_set_ne (Ne.symm hji)]

theorem rankLoop_getD_mem (docs : List Document) (scores : List ℚ)
    (idxs : List Nat) (j : Nat) (hj : j ∈ idxs) (hlt : j < docs.length) :
    (rankLoop docs scores idxs).1.getD j default =
      { docs.getD j default with score := some (scores.getD j 0) } := by
  induction idxs generalizing docs with
  | nil => exact absurd hj (List.not_mem_nil j)
  | cons i rest ih =>
    by_cases hjr : j ∈ rest
    · have hlt1 : j < (docs.set i
          { docs.getD i default with score := some (scores.getD i 0) }).length := by
        simpa using hlt
      simp only [rankLoop, ih _ hjr hlt1]
      by_cases hji : j = i
      · subst hji
        have hset : (docs.set j
              { docs.getD j default with score := some (scores.getD j 0) }).getD j default =
            { docs.getD j default with score := some (scores.getD j 0) } := by
          simp [List.getD, List.getElem?_set_self hlt]
        rw [hset]
      · have hset : (docs.set i
              { docs.getD i default with score := some (scores.getD i 0) }).getD j default =
            docs.getD j default := by
          simp [List.getD, List.getElem?_set_ne (Ne.symm hji)]
        rw [hset]
    · have hji : j = i := by
        rcases List.mem_cons.mp hj with h | h
        · exact h
        · exact absurd h hjr
      subst hji
      simp only [rankLoop, rankLoop_getD_not_mem _ _ _ _ hjr]
      simp [List.getD, List.getElem?_set_self hlt]

theorem lookup_map_snd (kw : ModelKwargs) (f : MKVal → MKVal) (k : String) :
    (kw.map (fun p => (p.1, f p.2))).lookup k = (kw.lookup k).map f := by
  induction kw with
  | nil => rfl
  | cons p rest ih =>
    by_cases h : k = p.1
    · simp [List.lookup, h]
    · simp [List.lookup, h, ih, beq_false_of_ne h]

theorem ofCanonical_canonical (d : TorchDtype) :
    TorchDtype.ofCanonical d.canonical = some d := by
  cases d <;> rfl

theorem canonical_of_ofCanonical (s : String) (d : TorchDtype)
    (h : TorchDtype.ofCanonical s = some d) : d.canonical = s := by
  unfold TorchDtype.ofCanonical at h
  split_ifs at h with h1 h2 h3 h4
  · simp only [Option.some.injEq] at h; rw [← h, h1]; rfl
  · simp only [Option.some.injEq] at h; rw [← h, h2]; rfl
  · simp only [Option.some.injEq] at h; rw [← h, h3]; rfl
  · simp only [Option.some.injEq] at h; rw [← h, h4]; rfl

theorem truthy_deserialize_serialize (v : MKVal) :
    (deserializeVal (serializeVal v)).truthy = v.truthy := by
  cases v with
  | str s =>
    simp only [serializeVal, deserializeVal]
    cases h : TorchDtype.ofCanonical s with
    | none => rfl
    | some d =>
      have hs := canonical_of_ofCanonical s d h
      subst hs
      cases d <;> decide
  | boolV b => rfl
  | intV n => rfl
  | dtype d => simp [serializeVal, deserializeVal, ofCanonical_canonical, MKVal.truthy]

theorem run_eq_runCore (r : Ranker) (sigmoid : ℚ → ℚ)
    (scorer : List (String × String) → List ℚ) (sortIdxs : List Nat)
    (query : String) (documents : List Document) (tko : Option Int)
    (sco : Option Bool) (cfo sto : Option ℚ)
    (hne : documents ≠ [])
    (htk : ¬ effTopK r tko ≤ 0)
    (hsc : ¬ (effScale r sco = true ∧ (effCF r cfo).isNone = true))
    (hw : r.modelLoaded = true) :
    run r sigmoid scorer sortIdxs query documents tko sco cfo sto =
      runCore r sigmoid scorer sortIdxs query documents
        (effTopK r tko) (effScale r sco) (effCF r cfo) (effST r sto) := by
  have h0 : documents.isEmpty = false := by
    cases documents with
    | nil => exact absurd rfl hne
    | cons a l => rfl
  unfold run
  rw [h0]
  simp only [Bool.false_eq_true, if_false]
  rw [if_neg htk, if_neg (by simpa using hsc), if_neg (by simp [hw])]

theorem run_error_none_conds (r : Ranker) (sigmoid : ℚ → ℚ)
    (scorer : List (String × String) → List ℚ) (sortIdxs : List Nat)
    (query : String) (documents : List Document) (tko : Option Int)
    (sco : Option Bool) (cfo sto : Option ℚ)
    (hne : documents ≠ [])
    (h : (run r sigmoid scorer sortIdxs query documents tko sco cfo sto).error = none) :
    ¬ effTopK r tko ≤ 0 ∧
      ¬ (effScale r sco = true ∧ (effCF r cfo).isNone = true) ∧
      r.modelLoaded = true := by
  have h0 : documents.isEmpty = false := by
    cases documents with
    | nil => exact absurd rfl hne
    | cons a l => rfl
  unfold run at h
  rw [h0] at h
  simp only [Bool.false_eq_true, if_false] at h
  split_ifs at h with c1 c2 c3
  exact ⟨c1, c2, c3⟩

theorem run_documents_length (r : Ranker) (sigmoid : ℚ → ℚ)
    (scorer : List (String × String) → List ℚ) (sortIdxs : List Nat)
    (query : String) (documents : List Document) (tko : Option Int)
    (sco : Option Bool) (cfo sto : Option ℚ) :
    (run r sigmoid scorer sortIdxs query documents tko sco cfo sto).documents.length =
      documents.length := by
  rcases eq_or_ne documents [] with hd | hd
  · subst hd; rfl
  · have h0 : documents.isEmpty = false := by
      cases documents with
      | nil => exact absurd rfl hd
      | cons a l => rfl
    unfold run
    rw [h0]
    simp only [Bool.false_eq_true, if_false]
    by_cases c1 : effTopK r tko ≤ 0
    · rw [if_pos c1]
    · rw [if_neg c1]
      by_cases c2 : effScale r sco = true ∧ (effCF r cfo).isNone = true
      · rw [if_pos (by simpa using c2)]
      · rw [if_neg (by simpa using c2)]
        by_cases c3 : r.modelLoaded = true
        · rw [if_neg (by simp [c3])]
          simp [runCore, rankLoop_length]
        · rw [if_pos (by simpa using c3)]

theorem runScores_length (r : Ranker) (sigmoid : ℚ → ℚ)
    (scorer : List (String × String) → List ℚ) (query : String)
    (documents : List Document) (sco : Option Bool) (cfo : Option ℚ)
    (hlen : (scorer (queryDocPairs r.meta_fields_to_embed r.embedding_separator
        query documents)).length = documents.length) :
    (runScores r sigmoid scorer query documents sco cfo).length = documents.length := by
  unfold runScores
  rw [finalScores_length, hlen]

theorem sortIdxs_mem_lt (r : Ranker) (sigmoid : ℚ → ℚ)
    (scorer : List (String × String) → List ℚ) (sortIdxs : List Nat)
    (query : String) (documents : List Document)
    (sco : Option Bool) (cfo : Option ℚ)
    (hlen : (scorer (queryDocPairs r.meta_fields_to_embed r.embedding_separator
        query documents)).length = documents.length)
    (hsort : IsTorchSortDesc (runScores r sigmoid scorer query documents sco cfo) sortIdxs)
    (i : Nat) :
    i ∈ sortIdxs ↔ i < documents.length := by
  rw [hsort.1.mem_iff, List.mem_range,
    runScores_length r sigmoid scorer query documents sco cfo hlen]

theorem run_documents_getD (r : Ranker) (sigmoid : ℚ → ℚ)
    (scorer : List (String × String) → List ℚ) (sortIdxs : List Nat)
    (query : String) (documents : List Document) (tko : Option Int)
    (sco : Option Bool) (cfo sto : Option ℚ)
    (hlen : (scorer (queryDocPairs r.meta_fields_to_embed r.embedding_separator
        query documents)).length = documents.length)
    (hsort : IsTorchSortDesc (runScores r sigmoid scorer query documents sco cfo) sortIdxs)
    (hok : (run r sigmoid scorer sortIdxs query documents tko sco cfo sto).error = none)
    (i : Nat) (hi : i < documents.length) :
    (run r sigmoid scorer sortIdxs query documents tko sco cfo sto).documents.getD i default =
      { documents.getD i default with
        score := some ((runScores r sigmoid scorer query documents sco cfo).getD i 0) } := by
  rcases eq_or_ne documents [] with hd | hd
  · subst hd; simp at hi
  · obtain ⟨c1, c2, c3⟩ :=
      run_error_none_conds r sigmoid scorer sortIdxs query documents tko sco cfo sto hd hok
    rw [run_eq_runCore r sigmoid scorer sortIdxs query documents tko sco cfo sto hd c1 c2 c3]
    have hmem : i ∈ sortIdxs :=
      (sortIdxs_mem_lt r sigmoid scorer sortIdxs query documents sco cfo hlen hsort i).mpr hi
    exact rankLoop_getD_mem documents _ sortIdxs i hmem hi

theorem run_ranked_eq (r : Ranker) (sigmoid : ℚ → ℚ)
    (scorer : List (String × String) → List ℚ) (sortIdxs : List Nat)
    (query : String) (documents : List Document) (tko : Option Int)
    (sco : Option Bool) (cfo sto : Option ℚ)
    (hlen : (scorer (queryDocPairs r.meta_fields_to_embed r.embedding_separator
        query documents)).length = documents.length)
    (hsort : IsTorchSortDesc (runScores r sigmoid scorer query documents sco cfo) sortIdxs)
    (hok : (run r sigmoid scorer sortIdxs query documents tko sco cfo sto).error = none) :
    (run r sigmoid scorer sortIdxs query documents tko sco cfo sto).ranked =
      (match effST r sto with
       | none => sortIdxs
       | some t => sortIdxs.filter
           (fun i => decide (t ≤ (runScores r sigmoid scorer query documents sco cfo).getD i 0))).take
        (effTopK r tko).toNat := by
  rcases eq_or_ne documents [] with hd | hd
  · subst hd
    have hs : sortIdxs = [] := by
      have h0 : (runScores r sigmoid scorer query [] sco cfo).length = 0 := by
        simpa using runScores_length r sigmoid scorer query [] sco cfo hlen
      have hp := hsort.1
      rw [h0] at hp
      exact hp.eq_nil
    subst hs
    cases h : effST r sto <;> simp [run, h]
  · obtain ⟨c1, c2, c3⟩ :=
      run_error_none_conds r sigmoid scorer sortIdxs query documents tko sco cfo sto hd hok
    rw [run_eq_runCore r sigmoid scorer sortIdxs query documents tko sco cfo sto hd c1 c2 c3]
    unfold runCore
    simp only [rankLoop_snd]
    congr 1
    cases h : effST r sto with
    | none => rfl
    | some t =>
      apply List.filter_congr
      intro i hmemi
      have hi : i < documents.length :=
        (sortIdxs_mem_lt r sigmoid scorer sortIdxs query documents sco cfo hlen hsort i).mp hmemi
      have hset := rankLoop_getD_mem documents
        (runScores r sigmoid scorer query documents sco cfo) sortIdxs i hmemi hi
      rw [show (rankLoop documents (finalScores (effScale r sco) (effCF r cfo) sigmoid
          (scorer (queryDocPairs r.meta_fields_to_embed r.embedding_separator query documents)))
          sortIdxs).1 = (rankLoop documents
          (runScores r sigmoid scorer query documents sco cfo) sortIdxs).1 from rfl, hset]
      rfl

theorem serialize_deserialize_serialize (v : MKVal) :
    serializeVal (deserializeVal (serializeVal v)) = serializeVal v := by
  cases v with
  | str s =>
    simp only [serializeVal, deserializeVal]
    cases h : TorchDtype.ofCanonical s with
    | none => rfl
    | some d => simp [serializeVal, canonical_of_ofCanonical s d h]
  | boolV b => rfl
  | intV n => rfl
  | dtype d => simp [serializeVal, deserializeVal, ofCanonical_canonical]

theorem getD_map_lt (l : List ℚ) (g : ℚ → ℚ) (i : Nat) (hi : i < l.length) :
    (l.map g).getD i 0 = g (l.getD i 0) := by
  simp [List.getD, List.getElem?_map, List.getElem?_eq_getElem hi]

theorem lookup_append_right (kw : ModelKwargs) (k : String) (v : MKVal)
    (h : kw.lookup k = none) : (kw ++ [(k, v)]).lookup k = some v := by
  induction kw with
  | nil => simp [List.lookup]
  | cons p rest ih =>
    cases hpk : (k == p.1) with
    | true => simp [List.lookup, hpk] at h
    | false =>
      simp only [List.cons_append, List.lookup, hpk] at h ⊢
      exact ih h

/-- Concrete data for the witnesses: a warmed-up ranker with
`scale_score=False`, no calibration factor and a score threshold of 2. -/
def wRanker : Ranker :=
  { defaultRanker with
    modelLoaded := true
    scale_score := false
    calibration_factor := none
    score_threshold := some 2 }

/-- Concrete data for the witnesses: two documents without scores. -/
def wDocs : List Document :=
  [{ id := 0, content := some "Paris", meta := [], score := none },
   { id := 1, content := some "Berlin", meta := [], score := none }]

/-- Concrete data for the witnesses: an external scorer returning the raw
logits 1 and 3. -/
def wScorer : List (String × String) → List ℚ := fun _ => [1, 3]

/-- Concrete data for the tie counterexample: a warmed-up ranker with raw
(unscaled) scores. -/
def tieRanker : Ranker :=
  { defaultRanker with
    modelLoaded := true
    scale_score := false
    calibration_factor := none }

/-- Concrete data for the tie counterexample: two documents. -/
def tieDocs : List Document :=
  [{ id := 0, content := some "a", meta := [], score := none },
   { id := 1, content := some "b", meta := [], score := none }]

/-- Concrete data for the witnesses: a ranker holding a literal string token
and a dtype loader option. -/
def secretRanker : Ranker :=
  { defaultRanker with
    token := .strTok "secret"
    model_kwargs := [("torch_dtype", .dtype .float16)] }

/-- Concrete data for the witnesses: a ranker constructed with a
`device_map` entry in `model_kwargs` and no `device` argument. -/
def rankerWithDeviceMap : Ranker :=
  { model_name_or_path := "my_model"
    modelLoaded := false
    top_k := 10
    token := .noneTok
    meta_fields_to_embed := []
    embedding_separator := "\n"
    scale_score := true
    calibration_factor := some 1
    score_threshold := none
    model_kwargs := [("device_map", .str "cuda:0")]
    device := ⟨"cuda:0"⟩ }

theorem lookup_deser_ser (kw : ModelKwargs) (k : String) :
    truthyOpt ((deserializeKwargs (serializeKwargs kw)).lookup k) =
      truthyOpt (kw.lookup k) := by
  unfold deserializeKwargs serializeKwargs
  rw [List.map_map]
  show truthyOpt ((kw.map (fun p => (p.1, deserializeVal (serializeVal p.2)))).lookup k) = _
  rw [lookup_map_snd kw (fun v => deserializeVal (serializeVal v)) k]
  cases hlk : kw.lookup k with
  | none => rfl
  | some v =>
    show (deserializeVal (serializeVal v)).truthy = v.truthy
    exact truthy_deserialize_serialize v

theorem ser_deser_ser_kwargs (kw : ModelKwargs) :
    serializeKwargs (deserializeKwargs (serializeKwargs kw)) = serializeKwargs kw := by
  unfold serializeKwargs deserializeKwargs
  rw [List.map_map, List.map_map]
  apply List.map_congr_left
  intro p _
  show (p.1, serializeVal (deserializeVal (serializeVal p.2))) = (p.1, serializeVal p.2)
  rw [serialize_deserialize_serialize]

/-! ### The claims -/

/-- C1: the claim says an explicitly provided falsy override (`False` for
`scale_score`, `0`/`0.0` for `top_k`, `calibration_factor`,
`score_threshold`) is used as the effective value for that call.  The code
resolves the effective parameters with the Python `or` operator
(lines 188-191), so a falsy override silently falls back to the stored
default: with the constructor defaults (`scale_score=True`,
`calibration_factor=1.0`, `top_k=10`), an override of `False`/`0`/`0.0` is
ignored, and a `run` call overriding `scale_score=False` still applies the
sigmoid to the raw score (the document's stored score is the sigmoid image
100, not the raw score 0; the sigmoid is here modelled by the constant
function 100). -/
theorem run_falsy_overrides_fall_back_to_defaults :
    effScale defaultRanker (some false) = true ∧
    effTopK defaultRanker (some 0) = 10 ∧
    effCF defaultRanker (some 0) = some 1 ∧
    effST { defaultRanker with score_threshold := some 3 } (some 0) = some 3 ∧
    (run { defaultRanker with modelLoaded := true } (fun _ => 100) (fun _ => [0]) [0]
        "q" [{ id := 0, content := some "a", meta := [], score := none }]
        none (some false) none none).documents =
      [{ id := 0, content := some "a", meta := [], score := some 100 }] := by
  refine ⟨rfl, rfl, by decide, by decide, by decide⟩

/-- C2: the claim (and the repository's own test
`test_device_map_and_device_raises`, which expects only a logged warning)
says construction succeeds when both `device` and a `device_map` entry in
`model_kwargs` are provided.  The source instead raises a `ValueError`
(lines 89-93): evaluating the constructor on such input yields the error. -/
theorem init_device_and_device_map_raises :
    init "model" (some ⟨"cuda"⟩) .noneTok 10 none "\n" true (some 1) none
      (some [("device_map", .str "cpu")]) =
    .error (.valueError "The parameters device and device_map from model_kwargs cannot both be provided.") := by
  rfl

/-- C7: the fused text is built exactly as the claim describes (string-coerced
present-and-truthy meta fields in configured order, then `content or ""`,
joined by the separator, pairs in input order), but the source has no
`query_prefix`/`document_prefix` parameters at all: the pair handed to the
scorer is exactly `[query, fused_text]` with nothing prepended, although the
repository's own tests (`test_prefix`) construct the ranker with prefix
arguments and expect them prepended. -/
theorem queryDocPairs_no_instruction_prefixes :
    queryDocPairs ["meta_field"] "\n" "test"
      [{ id := 0, content := some "document number 0",
         meta := [("meta_field", .mStr "meta_value 0")], score := none }] =
      [("test", "meta_value 0\ndocument number 0")] ∧
    queryDocPairs [] "\n" "test"
      [{ id := 0, content := some "document number 0", meta := [], score := none },
       { id := 1, content := none, meta := [], score := none }] =
      [("test", "document number 0"), ("test", "")] ∧
    queryDocPairs ["absent", "empty", "kept"] "; " "q"
      [{ id := 0, content := some "body",
         meta := [("empty", .mStr ""), ("kept", .mInt 7)], score := none }] =
      [("q", "7; body")] := by
  refine ⟨by decide, by decide, by decide⟩

/-- C3 counterexample: the claim says equal-score documents keep their input
order, but the code sorts with `torch.sort(..., descending=True)` whose
default `stable=False` leaves the order of equal values unspecified: the
index list `[1, 0]` satisfies the sort contract for the tied final scores
`[1, 1]`, and the resulting `run` returns the two tied documents in reversed
input order. -/
theorem torch_sort_tie_reordering_example :
    IsTorchSortDesc
      (runScores tieRanker (fun x => x) (fun _ => [1, 1]) "q" tieDocs none none) [1, 0] ∧
    (run tieRanker (fun x => x) (fun _ => [1, 1]) [1, 0] "q" tieDocs
        none none none none).documents =
      [{ id := 0, content := some "a", meta := [], score := some 1 },
       { id := 1, content := some "b", meta := [], score := some 1 }] ∧
    (run tieRanker (fun x => x) (fun _ => [1, 1]) [1, 0] "q" tieDocs
        none none none none).ranked = [1, 0] := by
  refine ⟨by decide, by decide, by decide⟩

/-- C8 counterexample: for a ranker validly constructed with a `device_map`
entry in `model_kwargs` (and no `device` argument), `from_dict (to_dict r)`
does not succeed: the export records both the resolved device and the
`device_map` entry, and reconstruction raises the constructor's
device-conflict `ValueError`. -/
theorem roundtrip_fails_with_device_map :
    init "my_model" none .noneTok 10 none "\n" true (some 1) none
      (some [("device_map", .str "cuda:0")]) = .ok rankerWithDeviceMap ∧
    from_dict (to_dict rankerWithDeviceMap) =
      .error (.valueError "The parameters device and device_map from model_kwargs cannot both be provided.") := by
  refine ⟨by rfl, by rfl⟩

/-- C8 (amended): for every validly constructed ranker whose `model_kwargs`
contain no truthy `device_map` entry, `from_dict (to_dict r)` succeeds and the
reconstructed ranker's export equals the original export; a literal string
token is omitted from the export (replaced by `None`) while boolean or
absent tokens are preserved, both in the export and through the round
trip.  (With a truthy `device_map` entry the reconstruction raises the
device-conflict error, see the counterexample.) -/
theorem to_dict_from_dict_roundtrip (r : Ranker)
    (h1 : 0 < r.top_k)
    (h2 : ¬ (r.scale_score = true ∧ r.calibration_factor.isNone = true))
    (h3 : truthyOpt (r.model_kwargs.lookup "device_map") = false) :
    (∃ r2, from_dict (to_dict r) = .ok r2 ∧ to_dict r2 = to_dict r ∧
      ((∀ s, r.token ≠ .strTok s) → r2.token = r.token)) ∧
    (∀ s, r.token = .strTok s → (to_dict r).token = .noneTok) ∧
    (r.token = .noneTok → (to_dict r).token = .noneTok) ∧
    (∀ b, r.token = .boolTok b → (to_dict r).token = .boolTok b) := by
  have hdm : truthyOpt ((deserializeKwargs (serializeKwargs r.model_kwargs)).lookup
      "device_map") = false := by
    rw [lookup_deser_ser]; exact h3
  refine ⟨⟨{ model_name_or_path := r.model_name_or_path
             modelLoaded := false
             top_k := r.top_k
             token := match r.token with | .strTok _ => .noneTok | t => t
             meta_fields_to_embed := r.meta_fields_to_embed
             embedding_separator := r.embedding_separator
             scale_score := r.scale_score
             calibration_factor := r.calibration_factor
             score_threshold := r.score_threshold
             model_kwargs := deserializeKwargs (serializeKwargs r.model_kwargs)
             device := r.device }, ?_, ?_, ?_⟩, ?_, ?_, ?_⟩
  · show init r.model_name_or_path (some (ComponentDevice.from_dict (r.device.to_dict)))
      (match r.token with | .strTok _ => .noneTok | t => t) r.top_k
      (some r.meta_fields_to_embed) r.embedding_separator r.scale_score
      r.calibration_factor r.score_threshold
      (some (deserializeKwargs (serializeKwargs r.model_kwargs))) = _
    unfold init
    rw [if_neg (by simp [hdm]), if_neg h2, if_neg (by omega)]
    simp only [Option.getD_some, hdm, Bool.false_eq_true, false_and, if_false]
    rfl
  · show to_dict _ = to_dict r
    unfold to_dict
    simp only [ser_deser_ser_kwargs]
    cases r.token <;> rfl
  · intro hns
    cases htok : r.token with
    | noneTok => rfl
    | boolTok b => rfl
    | strTok s => exact absurd htok (hns s)
  · intro s hs
    show (match r.token with | .strTok _ => TokenVal.noneTok | t => t) = .noneTok
    rw [hs]
  · intro hn
    show (match r.token with | .strTok _ => TokenVal.noneTok | t => t) = .noneTok
    rw [hn]
  · intro b hb
    show (match r.token with | .strTok _ => TokenVal.noneTok | t => t) = .boolTok b
    rw [hb]

/-- C8 witness: a ranker holding a literal string token and a dtype loader
option round-trips to an equal export, with the token omitted. -/
theorem to_dict_from_dict_roundtrip_witness :
    0 < secretRanker.top_k ∧
    ¬ (secretRanker.scale_score = true ∧ secretRanker.calibration_factor.isNone = true) ∧
    truthyOpt (secretRanker.model_kwargs.lookup "device_map") = false ∧
    ((∃ r2, from_dict (to_dict secretRanker) = .ok r2 ∧
      to_dict r2 = to_dict secretRanker ∧
      ((∀ s, secretRanker.token ≠ .strTok s) → r2.token = secretRanker.token)) ∧
    (∀ s, secretRanker.token = .strTok s → (to_dict secretRanker).token = .noneTok) ∧
    (secretRanker.token = .noneTok → (to_dict secretRanker).token = .noneTok) ∧
    (∀ b, secretRanker.token = .boolTok b → (to_dict secretRanker).token = .boolTok b)) :=
  ⟨by decide, by decide, by decide,
    to_dict_from_dict_roundtrip secretRanker (by decide) (by decide) (by decide)⟩

/-- C9 counterexample: the claim says a configuration error is raised if and
only if the effective `top_k ≤ 0` or `scale_score` is true with a null
`calibration_factor`; but construction with `top_k = 5 > 0` and
`scale_score = False` still raises a `ValueError` when both a `device`
argument and a truthy `device_map` entry are supplied (lines 89-93). -/
theorem init_error_beyond_claimed_conditions :
    (init "m" (some ⟨"cuda:0"⟩) (.boolTok true) 5 none "," false none none
        (some [("device_map", .str "cuda:1")])).isOk = false ∧
    ¬ ((5 : Int) ≤ 0 ∨ (false = true ∧ (none : Option ℚ).isNone = true)) := by
  refine ⟨by decide, by decide⟩

/-- C9 (amended): a configuration error (`ValueError`) is raised if and only
if the effective `top_k ≤ 0`, or the effective `scale_score` is true while
the effective `calibration_factor` is null, or — at construction only — a
truthy `device_map` entry in `model_kwargs` is combined with a `device`
argument.  The check runs at construction over the constructor arguments and
at the start of every `run` call on a non-empty document list over the
per-call effective values, and whenever `run` raises, the document list is
left untouched and nothing is returned (no document is scored or mutated). -/
theorem config_error_iff
    (model : String) (device : Option ComponentDevice) (token : TokenVal)
    (tk : Int) (mf : Option (List String)) (sep : String) (sc : Bool)
    (cf st : Option ℚ) (mk : Option ModelKwargs)
    (r : Ranker) (sigmoid : ℚ → ℚ) (scorer : List (String × String) → List ℚ)
    (sortIdxs : List Nat) (query : String) (documents : List Document)
    (tko : Option Int) (sco : Option Bool) (cfo sto : Option ℚ)
    (hne : documents ≠ []) :
    ((∃ msg, init model device token tk mf sep sc cf st mk = .error (.valueError msg)) ↔
      ((truthyOpt ((mk.getD []).lookup "device_map") = true ∧ device.isSome = true) ∨
        (sc = true ∧ cf.isNone = true) ∨ tk ≤ 0)) ∧
    (isValueError (run r sigmoid scorer sortIdxs query documents tko sco cfo sto).error = true ↔
      (effTopK r tko ≤ 0 ∨ (effScale r sco = true ∧ (effCF r cfo).isNone = true))) ∧
    (∀ e, (run r sigmoid scorer sortIdxs query documents tko sco cfo sto).error = some e →
      (run r sigmoid scorer sortIdxs query documents tko sco cfo sto).documents = documents ∧
      (run r sigmoid scorer sortIdxs query documents tko sco cfo sto).ranked = []) := by
  have h0 : documents.isEmpty = false := by
    cases documents with
    | nil => exact absurd rfl hne
    | cons a l => rfl
  refine ⟨?_, ?_, ?_⟩
  · constructor
    · rintro ⟨msg, hmsg⟩
      by_cases d1 : truthyOpt ((mk.getD []).lookup "device_map") = true ∧ device.isSome = true
      · exact Or.inl d1
      · by_cases d2 : sc = true ∧ cf.isNone = true
        · exact Or.inr (Or.inl d2)
        · by_cases d3 : tk ≤ 0
          · exact Or.inr (Or.inr d3)
          · exfalso
            unfold init at hmsg
            rw [if_neg d1, if_neg d2, if_neg d3] at hmsg
            cases hmsg
    · intro hor
      unfold init
      by_cases d1 : truthyOpt ((mk.getD []).lookup "device_map") = true ∧ device.isSome = true
      · rw [if_pos d1]; exact ⟨_, rfl⟩
      · rw [if_neg d1]
        by_cases d2 : sc = true ∧ cf.isNone = true
        · rw [if_pos d2]; exact ⟨_, rfl⟩
        · rw [if_neg d2]
          have d3 : tk ≤ 0 := by
            rcases hor with h | h | h
            · exact absurd h d1
            · exact absurd h d2
            · exact h
          rw [if_pos d3]; exact ⟨_, rfl⟩
  · unfold run
    rw [h0]
    simp only [Bool.false_eq_true, if_false]
    by_cases c1 : effTopK r tko ≤ 0
    · rw [if_pos c1]
      simp [isValueError, c1]
    · rw [if_neg c1]
      by_cases c2 : effScale r sco = true ∧ (effCF r cfo).isNone = true
      · rw [if_pos c2]
        simp [isValueError, c2]
      · rw [if_neg c2]
        by_cases c3 : r.modelLoaded = true
        · rw [if_neg (by simp [c3])]
          constructor
          · intro h
            exact absurd h (by simp [runCore, isValueError])
          · intro hor
            rcases hor with h | h
            · exact absurd h c1
            · exact absurd h c2
        · rw [if_pos (by simpa using c3)]
          constructor
          · intro h
            exact absurd h (by simp [isValueError])
          · intro hor
            rcases hor with h | h
            · exact absurd h c1
            · exact absurd h c2
  · intro e he
    unfold run at he ⊢
    rw [h0] at he ⊢
    simp only [Bool.false_eq_true, if_false] at he ⊢
    by_cases c1 : effTopK r tko ≤ 0
    · rw [if_pos c1] at he ⊢; exact ⟨rfl, rfl⟩
    · rw [if_neg c1] at he ⊢
      by_cases c2 : effScale r sco = true ∧ (effCF r cfo).isNone = true
      · rw [if_pos c2] at he ⊢; exact ⟨rfl, rfl⟩
      · rw [if_neg c2] at he ⊢
        by_cases c3 : r.modelLoaded = true
        · rw [if_neg (by simp [c3])] at he
          simp [runCore] at he
        · rw [if_pos (by simpa using c3)] at he ⊢; exact ⟨rfl, rfl⟩

/-- C9 witness: the two validation points instantiated at concrete values:
a plain constructor call and a `run` call on two documents. -/
theorem config_error_iff_witness :
    wDocs ≠ [] ∧
    (((∃ msg, init "w" none .noneTok 3 none "\n" true (some 1) none none =
        .error (.valueError msg)) ↔
      ((truthyOpt (((none : Option ModelKwargs).getD []).lookup "device_map") = true ∧
          (none : Option ComponentDevice).isSome = true) ∨
        (true = true ∧ (some (1 : ℚ)).isNone = true) ∨ (3 : Int) ≤ 0)) ∧
    (isValueError (run wRanker id wScorer [1, 0] "q" wDocs none none none none).error = true ↔
      (effTopK wRanker none ≤ 0 ∨
        (effScale wRanker none = true ∧ (effCF wRanker none).isNone = true))) ∧
    (∀ e, (run wRanker id wScorer [1, 0] "q" wDocs none none none none).error = some e →
      (run wRanker id wScorer [1, 0] "q" wDocs none none none none).documents = wDocs ∧
      (run wRanker id wScorer [1, 0] "q" wDocs none none none none).ranked = [])) :=
  ⟨by decide,
    config_error_iff "w" none .noneTok 3 none "\n" true (some 1) none none
      wRanker id wScorer [1, 0] "q" wDocs none none none none (by decide)⟩

/-- C10: `warm_up` on a not-yet-loaded ranker permanently writes the resolved
device placement into the stored `model_kwargs` under `"device_map"`
(line 123); consequently the export produced after `warm_up` contains a
`device_map` entry that is absent from the export of the never-warmed-up
instance, so `to_dict` is not invariant under `warm_up`. -/
theorem warm_up_mutates_model_kwargs_export (r : Ranker)
    (hdm : r.model_kwargs.lookup "device_map" = none)
    (hml : r.modelLoaded = false) :
    (warm_up r).model_kwargs.lookup "device_map" = some r.device.to_hf ∧
    (to_dict (warm_up r)).model_kwargs.lookup "device_map" =
      some (serializeVal r.device.to_hf) ∧
    (to_dict r).model_kwargs.lookup "device_map" = none ∧
    to_dict (warm_up r) ≠ to_dict r := by
  have hw : warm_up r =
      { r with
        model_kwargs := setKw r.model_kwargs "device_map" r.device.to_hf
        modelLoaded := true } := by
    unfold warm_up
    rw [hml]
    simp
  have hset : (setKw r.model_kwargs "device_map" r.device.to_hf).lookup "device_map" =
      some r.device.to_hf := by
    unfold setKw
    rw [hdm]
    simp only [Option.isSome_none, Bool.false_eq_true, if_false]
    exact lookup_append_right r.model_kwargs "device_map" r.device.to_hf hdm
  have h1 : (warm_up r).model_kwargs.lookup "device_map" = some r.device.to_hf := by
    rw [hw]; exact hset
  have h2 : (to_dict (warm_up r)).model_kwargs.lookup "device_map" =
      some (serializeVal r.device.to_hf) := by
    show (serializeKwargs (warm_up r).model_kwargs).lookup "device_map" = _
    unfold serializeKwargs
    rw [lookup_map_snd, h1]
    rfl
  have h3 : (to_dict r).model_kwargs.lookup "device_map" = none := by
    show (serializeKwargs r.model_kwargs).lookup "device_map" = none
    unfold serializeKwargs
    rw [lookup_map_snd, hdm]
    rfl
  refine ⟨h1, h2, h3, fun heq => ?_⟩
  rw [heq] at h2
  rw [h3] at h2
  cases h2

/-- C3 (amended): for every execution whose sort indices satisfy the
`torch.sort(descending=True)` contract on the final scores, the documents
returned by a successful `run` are sorted by effective score in descending
order (every pair, in particular every adjacent pair, satisfies
`a.score ≥ b.score`).  The order of equal-score documents is whatever order
`torch.sort` produced, which the contract leaves unspecified. -/
theorem run_ranked_sorted_descending (r : Ranker) (sigmoid : ℚ → ℚ)
    (scorer : List (String × String) → List ℚ) (sortIdxs : List Nat)
    (query : String) (documents : List Document) (tko : Option Int)
    (sco : Option Bool) (cfo sto : Option ℚ)
    (hlen : (scorer (queryDocPairs r.meta_fields_to_embed r.embedding_separator
        query documents)).length = documents.length)
    (hsort : IsTorchSortDesc (runScores r sigmoid scorer query documents sco cfo) sortIdxs)
    (hok : (run r sigmoid scorer sortIdxs query documents tko sco cfo sto).error = none) :
    ((run r sigmoid scorer sortIdxs query documents tko sco cfo sto).ranked.map
      (fun i => docScore
        ((run r sigmoid scorer sortIdxs query documents tko sco cfo sto).documents.getD
          i default))).Pairwise (· ≥ ·) := by
  have hr := run_ranked_eq r sigmoid scorer sortIdxs query documents tko sco cfo sto
    hlen hsort hok
  have hsubL : ((match effST r sto with
      | none => sortIdxs
      | some t => sortIdxs.filter
          (fun i => decide (t ≤ (runScores r sigmoid scorer query documents sco cfo).getD i 0))).take
        (effTopK r tko).toNat).Sublist sortIdxs := by
    cases effST r sto with
    | none => exact List.take_sublist _ _
    | some t => exact (List.take_sublist _ _).trans (List.filter_sublist _)
  have hp : sortIdxs.Pairwise (fun a b =>
      (runScores r sigmoid scorer query documents sco cfo).getD a 0 ≥
        (runScores r sigmoid scorer query documents sco cfo).getD b 0) :=
    List.pairwise_map.mp hsort.2
  have hpL := (hp.sublist hsubL).imp_of_mem (fun {a b} ha hb hab => by
    have hla : a < documents.length :=
      (sortIdxs_mem_lt r sigmoid scorer sortIdxs query documents sco cfo hlen hsort a).mp
        (hsubL.subset ha)
    have hlb : b < documents.length :=
      (sortIdxs_mem_lt r sigmoid scorer sortIdxs query documents sco cfo hlen hsort b).mp
        (hsubL.subset hb)
    show docScore ((run r sigmoid scorer sortIdxs query documents tko sco cfo sto).documents.getD
        a default) ≥ docScore ((run r sigmoid scorer sortIdxs query documents
        tko sco cfo sto).documents.getD b default)
    rw [run_documents_getD r sigmoid scorer sortIdxs query documents tko sco cfo sto
        hlen hsort hok a hla,
      run_documents_getD r sigmoid scorer sortIdxs query documents tko sco cfo sto
        hlen hsort hok b hlb]
    exact hab)
  rw [hr]
  exact List.pairwise_map.mpr hpL

/-- C3 witness: a concrete run with distinct raw scores 1 and 3, sort
indices `[1, 0]`, threshold 2; the returned scores are descending. -/
theorem run_ranked_sorted_descending_witness :
    (wScorer (queryDocPairs wRanker.meta_fields_to_embed wRanker.embedding_separator
        "q" wDocs)).length = wDocs.length ∧
    IsTorchSortDesc (runScores wRanker id wScorer "q" wDocs none none) [1, 0] ∧
    (run wRanker id wScorer [1, 0] "q" wDocs none none none none).error = none ∧
    ((run wRanker id wScorer [1, 0] "q" wDocs none none none none).ranked.map
      (fun i => docScore
        ((run wRanker id wScorer [1, 0] "q" wDocs none none none none).documents.getD
          i default))).Pairwise (· ≥ ·) :=
  ⟨by decide, by decide, by decide,
    run_ranked_sorted_descending wRanker id wScorer [1, 0] "q" wDocs none none none none
      (by decide) (by decide) (by decide)⟩

/-- C4: on a successful run, when the effective `scale_score` is true every
document's final score is `sigmoid(raw_score * calibration_factor)` (with
the effective calibration factor); when it is false the final score is the
raw score unchanged; and the threshold comparison is performed on these
final values. -/
theorem run_score_calibration (r : Ranker) (sigmoid : ℚ → ℚ)
    (scorer : List (String × String) → List ℚ) (sortIdxs : List Nat)
    (query : String) (documents : List Document) (tko : Option Int)
    (sco : Option Bool) (cfo sto : Option ℚ)
    (hlen : (scorer (queryDocPairs r.meta_fields_to_embed r.embedding_separator
        query documents)).length = documents.length)
    (hsort : IsTorchSortDesc (runScores r sigmoid scorer query documents sco cfo) sortIdxs)
    (hok : (run r sigmoid scorer sortIdxs query documents tko sco cfo sto).error = none) :
    (effScale r sco = true →
      ∀ c, effCF r cfo = some c →
      ∀ i, i < documents.length →
        ((run r sigmoid scorer sortIdxs query documents tko sco cfo sto).documents.getD
            i default).score =
          some (sigmoid ((scorer (queryDocPairs r.meta_fields_to_embed
            r.embedding_separator query documents)).getD i 0 * c))) ∧
    (effScale r sco = false →
      ∀ i, i < documents.length →
        ((run r sigmoid scorer sortIdxs query documents tko sco cfo sto).documents.getD
            i default).score =
          some ((scorer (queryDocPairs r.meta_fields_to_embed
            r.embedding_separator query documents)).getD i 0)) ∧
    (∀ t, effST r sto = some t →
      ∀ i ∈ (run r sigmoid scorer sortIdxs query documents tko sco cfo sto).ranked,
        t ≤ (runScores r sigmoid scorer query documents sco cfo).getD i 0) := by
  refine ⟨?_, ?_, ?_⟩
  · intro hscale c hcf i hi
    rw [run_documents_getD r sigmoid scorer sortIdxs query documents tko sco cfo sto
      hlen hsort hok i hi]
    have hiraw : i < (scorer (queryDocPairs r.meta_fields_to_embed
        r.embedding_separator query documents)).length := by rw [hlen]; exact hi
    show some ((runScores r sigmoid scorer query documents sco cfo).getD i 0) = _
    unfold runScores finalScores
    rw [hscale, hcf]
    simp only [if_true]
    rw [getD_map_lt _ _ i hiraw]
    rfl
  · intro hscale i hi
    rw [run_documents_getD r sigmoid scorer sortIdxs query documents tko sco cfo sto
      hlen hsort hok i hi]
    show some ((runScores r sigmoid scorer query documents sco cfo).getD i 0) = _
    unfold runScores finalScores
    rw [hscale]
    simp only [Bool.false_eq_true, if_false]
  · intro t ht i hmem
    rw [run_ranked_eq r sigmoid scorer sortIdxs query documents tko sco cfo sto
      hlen hsort hok, ht] at hmem
    have hmf : i ∈ sortIdxs.filter
        (fun i => decide (t ≤ (runScores r sigmoid scorer query documents sco cfo).getD i 0)) :=
      (List.take_sublist _ _).subset hmem
    exact of_decide_eq_true (List.mem_filter.mp hmf).2

/-- C4 witness: with `scale_score` false the final scores are the raw logits
1 and 3 unchanged, and the returned document passes the threshold 2 on the
final value. -/
theorem run_score_calibration_witness :
    (wScorer (queryDocPairs wRanker.meta_fields_to_embed wRanker.embedding_separator
        "q" wDocs)).length = wDocs.length ∧
    IsTorchSortDesc (runScores wRanker id wScorer "q" wDocs none none) [1, 0] ∧
    (run wRanker id wScorer [1, 0] "q" wDocs none none none none).error = none ∧
    ((effScale wRanker none = true →
      ∀ c, effCF wRanker none = some c →
      ∀ i, i < wDocs.length →
        ((run wRanker id wScorer [1, 0] "q" wDocs none none none none).documents.getD
            i default).score =
          some (id ((wScorer (queryDocPairs wRanker.meta_fields_to_embed
            wRanker.embedding_separator "q" wDocs)).getD i 0 * c))) ∧
    (effScale wRanker none = false →
      ∀ i, i < wDocs.length →
        ((run wRanker id wScorer [1, 0] "q" wDocs none none none none).documents.getD
            i default).score =
          some ((wScorer (queryDocPairs wRanker.meta_fields_to_embed
            wRanker.embedding_separator "q" wDocs)).getD i 0)) ∧
    (∀ t, effST wRanker none = some t →
      ∀ i ∈ (run wRanker id wScorer [1, 0] "q" wDocs none none none none).ranked,
        t ≤ (runScores wRanker id wScorer "q" wDocs none none).getD i 0)) :=
  ⟨by decide, by decide, by decide,
    run_score_calibration wRanker id wScorer [1, 0] "q" wDocs none none none none
      (by decide) (by decide) (by decide)⟩

/-- C5: the returned index sequence of a successful run equals the sorted
index list, filtered (when a threshold is set) to the scores at least the
effective threshold, truncated to the first effective `top_k`; its length is
at most `min top_k (number of documents passing the threshold)`. -/
theorem run_threshold_filter_topk (r : Ranker) (sigmoid : ℚ → ℚ)
    (scorer : List (String × String) → List ℚ) (sortIdxs : List Nat)
    (query : String) (documents : List Document) (tko : Option Int)
    (sco : Option Bool) (cfo sto : Option ℚ)
    (hlen : (scorer (queryDocPairs r.meta_fields_to_embed r.embedding_separator
        query documents)).length = documents.length)
    (hsort : IsTorchSortDesc (runScores r sigmoid scorer query documents sco cfo) sortIdxs)
    (hok : (run r sigmoid scorer sortIdxs query documents tko sco cfo sto).error = none) :
    ((run r sigmoid scorer sortIdxs query documents tko sco cfo sto).ranked =
      (match effST r sto with
       | none => sortIdxs
       | some t => sortIdxs.filter
           (fun i => decide (t ≤ (runScores r sigmoid scorer query documents sco cfo).getD i 0))).take
        (effTopK r tko).toNat) ∧
    (run r sigmoid scorer sortIdxs query documents tko sco cfo sto).ranked.length ≤
      min (effTopK r tko).toNat
        (passCount (runScores r sigmoid scorer query documents sco cfo)
          (effST r sto) documents.length) := by
  have hr := run_ranked_eq r sigmoid scorer sortIdxs query documents tko sco cfo sto
    hlen hsort hok
  refine ⟨hr, ?_⟩
  rw [hr]
  have hslen : sortIdxs.length = documents.length := by
    rw [hsort.1.length_eq, List.length_range,
      runScores_length r sigmoid scorer query documents sco cfo hlen]
  cases h : effST r sto with
  | none =>
    simp only [passCount, List.length_take, hslen]
    exact le_refl _
  | some t =>
    simp only [passCount, List.length_take]
    rw [List.countP_eq_length_filter]
    have hcount : (sortIdxs.filter
        (fun i => decide (t ≤ (runScores r sigmoid scorer query documents sco cfo).getD i 0))).length =
        ((List.range documents.length).filter
          (fun i => decide (t ≤ (runScores r sigmoid scorer query documents sco cfo).getD i 0))).length := by
      rw [← List.countP_eq_length_filter, ← List.countP_eq_length_filter]
      have := hsort.1.countP_eq
        (fun i => decide (t ≤ (runScores r sigmoid scorer query documents sco cfo).getD i 0))
      rw [this, runScores_length r sigmoid scorer query documents sco cfo hlen]
    rw [hcount]

/-- C5 witness: raw scores 1 and 3, threshold 2, top-k 10: exactly the
single passing document is returned and the length bound holds. -/
theorem run_threshold_filter_topk_witness :
    (wScorer (queryDocPairs wRanker.meta_fields_to_embed wRanker.embedding_separator
        "q" wDocs)).length = wDocs.length ∧
    IsTorchSortDesc (runScores wRanker id wScorer "q" wDocs none none) [1, 0] ∧
    (run wRanker id wScorer [1, 0] "q" wDocs none none none none).error = none ∧
    (((run wRanker id wScorer [1, 0] "q" wDocs none none none none).ranked =
      (match effST wRanker none with
       | none => [1, 0]
       | some t => List.filter
           (fun i => decide (t ≤ (runScores wRanker id wScorer "q" wDocs none none).getD i 0))
           [1, 0]).take (effTopK wRanker none).toNat) ∧
    (run wRanker id wScorer [1, 0] "q" wDocs none none none none).ranked.length ≤
      min (effTopK wRanker none).toNat
        (passCount (runScores wRanker id wScorer "q" wDocs none none)
          (effST wRanker none) wDocs.length)) :=
  ⟨by decide, by decide, by decide,
    run_threshold_filter_topk wRanker id wScorer [1, 0] "q" wDocs none none none none
      (by decide) (by decide) (by decide)⟩

/-- C6: after a successful run, every input document carries its computed
score (the score field is set for all of them, whether or not they survive
filtering or truncation), the document list keeps its length with each
document unchanged except for the written score, and the returned sequence
consists of indices into that same list (the same objects, no copies). -/
theorem run_sets_all_scores_in_place (r : Ranker) (sigmoid : ℚ → ℚ)
    (scorer : List (String × String) → List ℚ) (sortIdxs : List Nat)
    (query : String) (documents : List Document) (tko : Option Int)
    (sco : Option Bool) (cfo sto : Option ℚ)
    (hlen : (scorer (queryDocPairs r.meta_fields_to_embed r.embedding_separator
        query documents)).length = documents.length)
    (hsort : IsTorchSortDesc (runScores r sigmoid scorer query documents sco cfo) sortIdxs)
    (hok : (run r sigmoid scorer sortIdxs query documents tko sco cfo sto).error = none) :
    ((run r sigmoid scorer sortIdxs query documents tko sco cfo sto).documents.length =
      documents.length) ∧
    (∀ i, i < documents.length →
      (run r sigmoid scorer sortIdxs query documents tko sco cfo sto).documents.getD i default =
        { documents.getD i default with
          score := some ((runScores r sigmoid scorer query documents sco cfo).getD i 0) }) ∧
    (∀ i ∈ (run r sigmoid scorer sortIdxs query documents tko sco cfo sto).ranked,
      i < documents.length) := by
  refine ⟨run_documents_length r sigmoid scorer sortIdxs query documents tko sco cfo sto,
    fun i hi => run_documents_getD r sigmoid scorer sortIdxs query documents tko sco cfo sto
      hlen hsort hok i hi,
    fun i hi => ?_⟩
  rw [run_ranked_eq r sigmoid scorer sortIdxs query documents tko sco cfo sto
    hlen hsort hok] at hi
  have hsubL : ((match effST r sto with
      | none => sortIdxs
      | some t => sortIdxs.filter
          (fun i => decide (t ≤ (runScores r sigmoid scorer query documents sco cfo).getD i 0))).take
        (effTopK r tko).toNat).Sublist sortIdxs := by
    cases effST r sto with
    | none => exact List.take_sublist _ _
    | some t => exact (List.take_sublist _ _).trans (List.filter_sublist _)
  exact (sortIdxs_mem_lt r sigmoid scorer sortIdxs query documents sco cfo hlen hsort i).mp
    (hsubL.subset hi)

/-- C6 witness: both documents end up with their scores written even though
only one is returned. -/
theorem run_sets_all_scores_in_place_witness :
    (wScorer (queryDocPairs wRanker.meta_fields_to_embed wRanker.embedding_separator
        "q" wDocs)).length = wDocs.length ∧
    IsTorchSortDesc (runScores wRanker id wScorer "q" wDocs none none) [1, 0] ∧
    (run wRanker id wScorer [1, 0] "q" wDocs none none none none).error = none ∧
    (((run wRanker id wScorer [1, 0] "q" wDocs none none none none).documents.length =
      wDocs.length) ∧
    (∀ i, i < wDocs.length →
      (run wRanker id wScorer [1, 0] "q" wDocs none none none none).documents.getD i default =
        { wDocs.getD i default with
          score := some ((runScores wRanker id wScorer "q" wDocs none none).getD i 0) }) ∧
    (∀ i ∈ (run wRanker id wScorer [1, 0] "q" wDocs none none none none).ranked,
      i < wDocs.length)) :=
  ⟨by decide, by decide, by decide,
    run_sets_all_scores_in_place wRanker id wScorer [1, 0] "q" wDocs none none none none
      (by decide) (by decide) (by decide)⟩

/-- C10 witness: the default ranker before warm-up. -/
theorem warm_up_mutates_model_kwargs_export_witness :
    defaultRanker.model_kwargs.lookup "device_map" = none ∧
    defaultRanker.modelLoaded = false ∧
    ((warm_up defaultRanker).model_kwargs.lookup "device_map" =
        some defaultRanker.device.to_hf ∧
      (to_dict (warm_up defaultRanker)).model_kwargs.lookup "device_map" =
        some (serializeVal defaultRanker.device.to_hf) ∧
      (to_dict defaultRanker).model_kwargs.lookup "device_map" = none ∧
      to_dict (warm_up defaultRanker) ≠ to_dict defaultRanker) :=
  ⟨rfl, rfl, warm_up_mutates_model_kwargs_export defaultRanker rfl rfl⟩

end TransformersSimilarity
